import Mathlib

/-
Verification of the vibehost-setup provisioning orchestrator.

This file gives a shallow embedding, in Lean 4, of the parts of the
vibehost-setup source that the specification's claims are about:

* `src/lib/host.py`   — SSH hardening (`verify_ssh_key_access`, `harden_ssh`,
                        `enable_contrib_repo`);
* `src/lib/ssh.py`    — remote file materialization (`SSHConnection.write_file`,
                        a tee-heredoc) and container command wrapping
                        (`ContainerExec.run`);
* `src/main.py`       — the sequential phase runner (`run_provisioning`);
* `src/lib/postgres.py` — `create_databases`;
* `src/lib/config.py` — `DatabaseConfig.actual_password`, `generate_password`,
                        and the field list of `VibehostConfig`.

The remote host is modelled as an explicit state (`Remote`): a map from paths
to file contents (`List Char`, so content equality is byte-for-byte), an
environment oracle `sshdOk` saying which sshd configuration contents pass
`sshd -t`, and a log of executed mutating commands.  Python functions that can
raise become functions returning `Except String Unit` paired with the state
they leave behind (an exception in the source does not undo remote effects).
-/

/-! ### Generic list utilities (substring search, line splitting) -/

/-- `isPrefixL needle hay` is true when `needle` is a prefix of `hay`
(character-wise, Boolean). -/
def isPrefixL : List Char → List Char → Bool
  | [], _ => true
  | _ :: _, [] => false
  | a :: as, b :: bs => a == b && isPrefixL as bs

/-- `containsSub hay needle` is true when `needle` occurs contiguously inside
`hay`.  This models `grep` matching of a pattern with no special regex
characters (the sources only grep for plain words and key material). -/
def containsSub : List Char → List Char → Bool
  | [], needle => needle.isEmpty
  | c :: t, needle => isPrefixL needle (c :: t) || containsSub t needle

/-- Split a character list into its lines at `'\n'` (the last line has no
terminator; the empty text is one empty line). -/
def splitLines : List Char → List (List Char)
  | [] => [[]]
  | c :: t =>
    if c == '\n' then [] :: splitLines t
    else
      match splitLines t with
      | [] => [[c]]
      | l :: ls => (c :: l) :: ls

/-- Join lines back with `'\n'` separators (inverse of `splitLines`). -/
def joinLines : List (List Char) → List Char
  | [] => []
  | [l] => l
  | l :: ls => l ++ '\n' :: joinLines ls

theorem splitLines_ne_nil (cs : List Char) : splitLines cs ≠ [] := by
  cases cs with
  | nil => simp [splitLines]
  | cons c t =>
    simp only [splitLines]
    split
    · simp
    · cases h : splitLines t <;> simp

theorem joinLines_splitLines (cs : List Char) : joinLines (splitLines cs) = cs := by
  induction cs with
  | nil => rfl
  | cons c t ih =>
    simp only [splitLines]
    split
    · rename_i hc
      obtain ⟨l, ls, hls⟩ : ∃ l ls, splitLines t = l :: ls := by
        cases h : splitLines t with
        | nil => exact absurd h (splitLines_ne_nil t)
        | cons l ls => exact ⟨l, ls, rfl⟩
      rw [hls]
      have : joinLines ([] :: l :: ls) = '\n' :: joinLines (l :: ls) := rfl
      rw [this, ← hls, ih]
      simp at hc
      rw [hc]
    · cases h : splitLines t with
      | nil => exact absurd h (splitLines_ne_nil t)
      | cons l ls =>
        rw [h] at ih
        cases ls with
        | nil =>
          have : joinLines [c :: l] = c :: l := rfl
          rw [this]
          have : joinLines [l] = l := rfl
          rw [this] at ih
          rw [ih]
        | cons l2 ls2 =>
          have h1 : joinLines ((c :: l) :: l2 :: ls2) = (c :: l) ++ '\n' :: joinLines (l2 :: ls2) := rfl
          have h2 : joinLines (l :: l2 :: ls2) = l ++ '\n' :: joinLines (l2 :: ls2) := rfl
          rw [h1]
          rw [h2] at ih
          simp only [List.cons_append]
          rw [ih]

theorem takeWhile_eq_self_of_all {α : Type} (p : α → Bool) (ls : List α)
    (h : ∀ a ∈ ls, p a = true) : ls.takeWhile p = ls := by
  induction ls with
  | nil => rfl
  | cons a t ih =>
    rw [List.takeWhile_cons]
    rw [h a (by simp)]
    simp only [ite_true]
    rw [ih (fun b hb => h b (by simp [hb]))]

/-! ### Association-list file system -/

/-- Look up a path in the remote file map. -/
def getAssoc (fs : List (String × List Char)) (path : String) : Option (List Char) :=
  match fs with
  | [] => none
  | (p, c) :: t => if p == path then some c else getAssoc t path

/-- Write (create or overwrite) a path in the remote file map. -/
def setAssoc (fs : List (String × List Char)) (path : String) (content : List Char) :
    List (String × List Char) :=
  match fs with
  | [] => [(path, content)]
  | (p, c) :: t => if p == path then (p, content) :: t else (p, c) :: setAssoc t path content

/-- Remove a path from the remote file map. -/
def eraseAssoc (fs : List (String × List Char)) (path : String) :
    List (String × List Char) :=
  match fs with
  | [] => []
  | (p, c) :: t => if p == path then t else (p, c) :: eraseAssoc t path

theorem getAssoc_setAssoc_same (fs : List (String × List Char)) (p : String) (c : List Char) :
    getAssoc (setAssoc fs p c) p = some c := by
  induction fs with
  | nil => simp [setAssoc, getAssoc]
  | cons pc t ih =>
    obtain ⟨q, d⟩ := pc
    simp only [setAssoc]
    split
    · rename_i hq
      simp [getAssoc, hq]
    · rename_i hq
      simp [getAssoc, hq, ih]

theorem getAssoc_setAssoc_ne (fs : List (String × List Char)) (p q : String) (c : List Char)
    (h : p ≠ q) : getAssoc (setAssoc fs p c) q = getAssoc fs q := by
  induction fs with
  | nil =>
    simp only [setAssoc, getAssoc]
    rw [if_neg (by simpa using h)]
  | cons pc t ih =>
    obtain ⟨p0, d⟩ := pc
    simp only [setAssoc]
    split
    · rename_i hp0
      have hp0' : p0 = p := by simpa using hp0
      simp only [getAssoc]
      rw [if_neg (by simp [hp0']; exact h), if_neg (by simp [hp0']; exact h)]
    · simp only [getAssoc]
      split
      · rfl
      · exact ih

/-! ### Remote host state

`Remote` is the observable state of the target host as manipulated by the
orchestrator over the SSH channel: the file system (path to byte content),
an oracle `sshdOk` describing which sshd configuration file contents the
remote `sshd -t` validation accepts (environment behavior, not code), and a
log of the mutating shell commands issued so far. -/

structure Remote where
  files : List (String × List Char)
  sshdOk : List Char → Bool
  log : List String

/-- Content of a remote file, `none` when absent (models `test -f`/reads). -/
def fileGet (r : Remote) (path : String) : Option (List Char) :=
  getAssoc r.files path

/-- Create or overwrite a remote file (no log entry; callers log the command). -/
def fileSet (r : Remote) (path : String) (content : List Char) : Remote :=
  { files := setAssoc r.files path content, sshdOk := r.sshdOk, log := r.log }

/-- Remove a remote file. -/
def fileErase (r : Remote) (path : String) : Remote :=
  { files := eraseAssoc r.files path, sshdOk := r.sshdOk, log := r.log }

/-- `mv src dst`: the destination receives the source's bytes and the source
disappears; no effect when the source is absent (the callers below only move
files they have just created). -/
def fileMove (r : Remote) (src dst : String) : Remote :=
  match fileGet r src with
  | none => r
  | some c => fileSet (fileErase r src) dst c

theorem fileGet_fileSet_same (r : Remote) (p : String) (c : List Char) :
    fileGet (fileSet r p c) p = some c :=
  getAssoc_setAssoc_same r.files p c

theorem fileGet_fileSet_ne (r : Remote) (p q : String) (c : List Char) (h : p ≠ q) :
    fileGet (fileSet r p c) q = fileGet r q :=
  getAssoc_setAssoc_ne r.files p q c h

/-! ### `SSHConnection.write_file` (src/lib/ssh.py, lines 99-103)

The Python implementation runs, under sudo, a single remote command

    tee PATH > /dev/null << 'VIBEHOST_EOF'
    CONTENT
    VIBEHOST_EOF

followed by `chmod MODE PATH`.  The heredoc body consists of the lines of
CONTENT up to (excluding) the first line equal to the delimiter
`VIBEHOST_EOF`, and every heredoc line is newline-terminated, so the file
receives CONTENT plus one trailing newline when no content line equals the
delimiter.  `teeBody` is that transfer semantics. -/

def heredocDelim : List Char := "VIBEHOST_EOF".toList

/-- Bytes that land in the destination file of the tee-heredoc. -/
def teeBody (content : List Char) : List Char :=
  joinLines ((splitLines content).takeWhile (fun l => !(l == heredocDelim))) ++ ['\n']

/-- Model of `SSHConnection.write_file(path, content, mode)`. -/
def write_file (r : Remote) (path : String) (content : List Char) (mode : String) : Remote :=
  { files := setAssoc r.files path (teeBody content)
    sshdOk := r.sshdOk
    log := r.log ++ ["sudo tee " ++ path, "sudo chmod " ++ mode ++ " " ++ path] }

/-! ### SSH hardening (src/lib/host.py) -/

/-- The admin identity section of the validated configuration
(`AdminConfig` in src/lib/config.py). -/
structure AdminConfig where
  username : String
  ssh_public_key : String

/-- Path of the admin identity's authorized-key file on the remote host. -/
def authorizedKeysPath (username : String) : String :=
  "/home/" ++ username ++ "/.ssh/authorized_keys"

/-- Model of `verify_ssh_key_access(ssh, config)` (src/lib/host.py, lines
77-102).  It runs `test -f` on the admin's authorized_keys file (false when
absent), then greps that file for the FIRST 50 CHARACTERS of the configured
public key (`config.admin.ssh_public_key[:50]`); it returns true exactly when
both remote probes exit zero. -/
def verify_ssh_key_access (r : Remote) (admin : AdminConfig) : Bool :=
  match fileGet r (authorizedKeysPath admin.username) with
  | none => false
  | some content => containsSub content (admin.ssh_public_key.toList.take 50)

/-- The hardened sshd configuration text built by `harden_ssh`
(src/lib/host.py, lines 116-144), including `PasswordAuthentication no`.
`allowed_users` is the admin username, plus the initial SSH login user when
different. -/
def hardenedSshdConfig (adminUsername sshUser : String) : String :=
  let allowed_users :=
    if sshUser != adminUsername then (adminUsername ++ " " ++ sshUser).trim
    else adminUsername
  "\n# vibehost hardened SSH config\nPort 22\nHostKey /etc/ssh/ssh_host_ed25519_key\nHostKey /etc/ssh/ssh_host_rsa_key\n\n# Authentication\nPermitRootLogin no\nPubkeyAuthentication yes\nPasswordAuthentication no\nPermitEmptyPasswords no\nKbdInteractiveAuthentication no\nUsePAM yes\n\n# Security\nX11Forwarding no\nAllowTcpForwarding yes\nMaxAuthTries 3\nMaxSessions 10\nClientAliveInterval 300\nClientAliveCountMax 2\n\n# Allowed users (admin + original ssh user if different)\nAllowUsers " ++ allowed_users ++ "\n"

def sshdConfigPath : String := "/etc/ssh/sshd_config"

def sshdBackupPath : String := "/etc/ssh/sshd_config.backup"

/-- Error message of the lockout guard in `harden_ssh`. -/
def lockoutErr : String :=
  "Cannot verify SSH key access for admin user. Refusing to disable password auth to prevent lockout."

/-- Error message raised when `sshd -t` rejects the new configuration. -/
def sshdTestErr : String := "SSH configuration test failed"

/-- Model of `harden_ssh(ssh, config)` (src/lib/host.py, lines 105-162):

1. call `verify_ssh_key_access`; raise (leaving the host untouched) when it
   is false;
2. `cp /etc/ssh/sshd_config /etc/ssh/sshd_config.backup` (raises when the
   source file is absent, since `ssh.sudo` is called without `warn`);
3. `write_file` the hardened configuration over `/etc/ssh/sshd_config`;
4. run `sudo sshd -t` on the configuration now in place; when it fails,
   `mv` the backup back over the configuration file and raise;
5. otherwise restart sshd.

The returned pair is (raised error or success, remote state afterwards). -/
def harden_ssh (r : Remote) (admin : AdminConfig) (sshUser : String) :
    Except String Unit × Remote :=
  if verify_ssh_key_access r admin then
    match fileGet r sshdConfigPath with
    | none => (Except.error "cp: cannot stat /etc/ssh/sshd_config", r)
    | some orig =>
      let r1 : Remote :=
        { files := setAssoc r.files sshdBackupPath orig
          sshdOk := r.sshdOk
          log := r.log ++ ["sudo cp /etc/ssh/sshd_config /etc/ssh/sshd_config.backup"] }
      let r2 := write_file r1 sshdConfigPath (hardenedSshdConfig admin.username sshUser).toList "644"
      if r2.sshdOk ((fileGet r2 sshdConfigPath).getD []) then
        (Except.ok (), { r2 with log := r2.log ++ ["sudo systemctl restart sshd"] })
      else
        let r3 := fileMove r2 sshdBackupPath sshdConfigPath
        (Except.error sshdTestErr,
         { r3 with log := r3.log ++ ["sudo mv /etc/ssh/sshd_config.backup /etc/ssh/sshd_config"] })
  else (Except.error lockoutErr, r)

/-! ### Helper lemmas and sample states for the hardening claims -/

theorem fileGet_write_file_same (r : Remote) (p : String) (content : List Char) (mode : String) :
    fileGet (write_file r p content mode) p = some (teeBody content) :=
  getAssoc_setAssoc_same r.files p (teeBody content)

theorem fileGet_write_file_ne (r : Remote) (p q : String) (content : List Char) (mode : String)
    (h : p ≠ q) : fileGet (write_file r p content mode) q = fileGet r q :=
  getAssoc_setAssoc_ne r.files p q (teeBody content) h

/-- A sample admin identity used to witness the hardening theorems. -/
def sampleAdmin : AdminConfig :=
  { username := "admin", ssh_public_key := "ssh-ed25519 AAAAtestkey" }

/-- A bare remote host: no files at all (in particular, no authorized_keys). -/
def emptyRemote : Remote := { files := [], sshdOk := fun _ => false, log := [] }

/-- A remote host where the admin's key is installed and an sshd_config
exists, but whose `sshd -t` rejects every configuration. -/
def readyRemote : Remote :=
  { files := [(authorizedKeysPath "admin", "ssh-ed25519 AAAAtestkey".toList),
              (sshdConfigPath, "old config".toList)]
    sshdOk := fun _ => false
    log := [] }

/-- C1: `harden_ssh` never writes the hardened sshd configuration unless
`verify_ssh_key_access` returned true in that same invocation: whenever the
verification returns false, `harden_ssh` raises the lockout error and leaves
the remote state (in particular `/etc/ssh/sshd_config`) completely
unchanged.  Quantifying over every starting state `r` covers re-runs after a
partial failure. -/
theorem harden_ssh_only_after_key_verified (r : Remote) (admin : AdminConfig) (sshUser : String)
    (h : verify_ssh_key_access r admin = false) :
    harden_ssh r admin sshUser = (Except.error lockoutErr, r) := by
  simp [harden_ssh, h]

/-- Witness for C1: on a host with no authorized_keys file the verification
fails and `harden_ssh` aborts without touching the state. -/
theorem harden_ssh_only_after_key_verified_witness :
    verify_ssh_key_access emptyRemote sampleAdmin = false ∧
    harden_ssh emptyRemote sampleAdmin "root" = (Except.error lockoutErr, emptyRemote) :=
  ⟨rfl, harden_ssh_only_after_key_verified emptyRemote sampleAdmin "root" rfl⟩

/-- A 51-character "public key" whose first 50 characters occur in the remote
authorized_keys file even though the full key does not. -/
def prefixOnlyKey : String := String.mk (List.replicate 50 'a' ++ ['Z'])

def prefixOnlyAdmin : AdminConfig := { username := "admin", ssh_public_key := prefixOnlyKey }

/-- Remote host whose authorized_keys holds only the 50-character prefix of
`prefixOnlyKey`, not the key itself. -/
def prefixOnlyRemote : Remote :=
  { files := [(authorizedKeysPath "admin", List.replicate 50 'a')]
    sshdOk := fun _ => false
    log := [] }

/-- Counterexample to C2 as stated: `verify_ssh_key_access` greps only for
the first 50 characters of the configured key
(`config.admin.ssh_public_key[:50]`, src/lib/host.py line 93), so on a host
whose authorized_keys contains that prefix but NOT the full expected key it
returns true — the claim demands false whenever the file does not contain
the expected configured public key. -/
theorem verify_key_prefix_counterexample :
    containsSub (List.replicate 50 'a') prefixOnlyKey.toList = false ∧
    verify_ssh_key_access prefixOnlyRemote prefixOnlyAdmin = true := by
  constructor
  · decide
  · decide

/-- C2 (amended): `verify_ssh_key_access` returns false whenever the admin's
authorized-key file is absent or does not contain the FIRST 50 CHARACTERS of
the expected configured public key, and whenever it returns false
`harden_ssh` aborts with the lockout error without applying any change (the
password-authentication-disabling write never happens).  The hypothesis
covers both cases: when the file is absent it holds vacuously. -/
theorem verify_key_login_false_cases (r : Remote) (admin : AdminConfig) (sshUser : String)
    (h : ∀ content, fileGet r (authorizedKeysPath admin.username) = some content →
        containsSub content (admin.ssh_public_key.toList.take 50) = false) :
    verify_ssh_key_access r admin = false ∧
    harden_ssh r admin sshUser = (Except.error lockoutErr, r) := by
  have hv : verify_ssh_key_access r admin = false := by
    unfold verify_ssh_key_access
    cases hg : fileGet r (authorizedKeysPath admin.username) with
    | none => rfl
    | some content => exact h content hg
  exact ⟨hv, by simp [harden_ssh, hv]⟩

/-- Witness for C2 (amended) at the bare remote host. -/
theorem verify_key_login_false_cases_witness :
    (∀ content, fileGet emptyRemote (authorizedKeysPath sampleAdmin.username) = some content →
        containsSub content (sampleAdmin.ssh_public_key.toList.take 50) = false) ∧
    (verify_ssh_key_access emptyRemote sampleAdmin = false ∧
     harden_ssh emptyRemote sampleAdmin "root" = (Except.error lockoutErr, emptyRemote)) :=
  ⟨fun _ hc => Option.noConfusion hc,
   verify_key_login_false_cases emptyRemote sampleAdmin "root"
     (fun _ hc => Option.noConfusion hc)⟩

/-- C3: when the post-change `sshd -t` validation rejects the configuration
that `harden_ssh` just wrote, the error propagates to the caller
(`RuntimeError("SSH configuration test failed")`) and the rollback (`mv` of
the backup taken immediately before the edit) leaves
`/etc/ssh/sshd_config` with byte-for-byte the content it had immediately
before the change. -/
theorem harden_ssh_rollback_restores_config (r : Remote) (admin : AdminConfig) (sshUser : String)
    (orig : List Char)
    (hver : verify_ssh_key_access r admin = true)
    (horig : fileGet r sshdConfigPath = some orig)
    (htest : r.sshdOk (teeBody (hardenedSshdConfig admin.username sshUser).toList) = false) :
    (harden_ssh r admin sshUser).1 = Except.error sshdTestErr ∧
    fileGet (harden_ssh r admin sshUser).2 sshdConfigPath = some orig := by
  have hne : sshdConfigPath ≠ sshdBackupPath := by decide
  have hne' : sshdBackupPath ≠ sshdConfigPath := by decide
  unfold harden_ssh
  rw [hver]
  simp only [if_true, horig]
  set r1 : Remote :=
    { files := setAssoc r.files sshdBackupPath orig
      sshdOk := r.sshdOk
      log := r.log ++ ["sudo cp /etc/ssh/sshd_config /etc/ssh/sshd_config.backup"] } with hr1
  set r2 := write_file r1 sshdConfigPath (hardenedSshdConfig admin.username sshUser).toList "644"
    with hr2
  have hcfg2 : fileGet r2 sshdConfigPath
      = some (teeBody (hardenedSshdConfig admin.username sshUser).toList) := by
    rw [hr2]; exact fileGet_write_file_same r1 sshdConfigPath _ "644"
  have hok2 : r2.sshdOk = r.sshdOk := by rw [hr2]; rfl
  have hcond : r2.sshdOk ((fileGet r2 sshdConfigPath).getD []) = false := by
    rw [hcfg2, hok2]
    exact htest
  rw [hcond]
  simp only [Bool.false_eq_true, if_false]
  have hbk2 : fileGet r2 sshdBackupPath = some orig := by
    rw [hr2]
    rw [fileGet_write_file_ne r1 sshdConfigPath sshdBackupPath _ "644" hne]
    show getAssoc (setAssoc r.files sshdBackupPath orig) sshdBackupPath = some orig
    exact getAssoc_setAssoc_same r.files sshdBackupPath orig
  constructor
  · trivial
  · show fileGet (fileMove r2 sshdBackupPath sshdConfigPath) sshdConfigPath = some orig
    unfold fileMove
    rw [hbk2]
    exact fileGet_fileSet_same _ sshdConfigPath orig

/-- Witness for C3: on `readyRemote` (key installed, old config present,
`sshd -t` rejecting everything) the hardening fails with the test error and
the configuration file again holds its original bytes. -/
theorem harden_ssh_rollback_restores_config_witness :
    verify_ssh_key_access readyRemote sampleAdmin = true ∧
    fileGet readyRemote sshdConfigPath = some "old config".toList ∧
    readyRemote.sshdOk (teeBody (hardenedSshdConfig sampleAdmin.username "root").toList) = false ∧
    ((harden_ssh readyRemote sampleAdmin "root").1 = Except.error sshdTestErr ∧
     fileGet (harden_ssh readyRemote sampleAdmin "root").2 sshdConfigPath
       = some "old config".toList) :=
  ⟨by decide, rfl, rfl,
   harden_ssh_rollback_restores_config readyRemote sampleAdmin "root" "old config".toList
     (by decide) rfl rfl⟩

/-! ### Phase sequencing: `run_provisioning` (src/main.py, lines 101-142)

`run_provisioning` calls the phase functions (`harden_host`, `setup_incus`,
`setup_network`, `create_containers`, `setup_postgres`,
`setup_dev_container`, `apply_common_setup`, `setup_backups`) strictly in
order inside one `try` block whose `except` clause prints a message and
re-raises the caught exception unchanged (`raise`).  `runPhases` is that
sequencing with the phases abstracted as state transformers: each phase
takes the remote state and returns the raised error (or success) together
with the state its already-applied operations leave behind — an exception
does not undo remote effects. -/

def runPhases {σ ε : Type} : List (σ → Except ε Unit × σ) → σ → Except ε Unit × σ
  | [], s => (Except.ok (), s)
  | p :: ps, s =>
    match p s with
    | (Except.ok _, s1) => runPhases ps s1
    | (Except.error e, s1) => (Except.error e, s1)

/-- C4 (amended): when every phase in `ps` succeeds and the next phase `f`
raises, the whole run returns exactly `f`'s error (re-raised unchanged) and
the state `f` left behind: no phase after `f` is executed (the result does
not depend on `qs` at all) and no already-applied operation is undone (the
final state is the state at the moment of failure).  The error value itself
carries no phase identification — see the counterexample. -/
theorem run_phases_stop_at_first_error {σ ε : Type}
    (ps : List (σ → Except ε Unit × σ)) (f : σ → Except ε Unit × σ)
    (qs : List (σ → Except ε Unit × σ)) (s s1 s2 : σ) (e : ε)
    (h1 : runPhases ps s = (Except.ok (), s1))
    (h2 : f s1 = (Except.error e, s2)) :
    runPhases (ps ++ f :: qs) s = (Except.error e, s2) := by
  induction ps generalizing s with
  | nil =>
    have hs : s = s1 := by simpa [runPhases] using h1
    subst hs
    simp [runPhases, h2]
  | cons p t ih =>
    simp only [List.cons_append, runPhases] at h1 ⊢
    cases hp : p s with
    | mk res s' =>
      rw [hp] at h1
      cases res with
      | ok u => exact ih s' h1
      | error e' =>
        have hbad : Except.error e' = Except.ok () := congrArg Prod.fst h1
        exact Except.noConfusion hbad

/-- A phase that succeeds, recording its operation in the state log. -/
def phaseLog (tag : String) : List String → Except String Unit × List String :=
  fun s => (Except.ok (), s ++ [tag])

/-- A phase whose operation applies (recorded in the log) and then raises. -/
def phaseBoom (tag : String) : List String → Except String Unit × List String :=
  fun s => (Except.error "boom", s ++ [tag])

/-- Witness for C4 (amended): with phases [A, B, C] where B fails, the run
returns B's error with C never executed and A's effect still applied. -/
theorem run_phases_stop_at_first_error_witness :
    runPhases [phaseLog "A"] ([] : List String) = (Except.ok (), ["A"]) ∧
    phaseBoom "B" ["A"] = (Except.error "boom", ["A", "B"]) ∧
    runPhases [phaseLog "A", phaseBoom "B", phaseLog "C"] [] = (Except.error "boom", ["A", "B"]) :=
  ⟨rfl, rfl,
   run_phases_stop_at_first_error [phaseLog "A"] (phaseBoom "B") [phaseLog "C"]
     [] ["A"] ["A", "B"] "boom" rfl rfl⟩

/-- Counterexample to C4 as stated: `run_provisioning` re-raises the failing
operation's exception unchanged, so the error the caller receives does not
identify which phase failed.  Concretely, a three-phase run whose SECOND
phase fails and one whose THIRD phase fails hand the caller the identical
error value `boom` (the remote-state logs differ — phase C ran only in the
second run — but the caller of `run_provisioning` observes only the raised
error, not the remote state). -/
theorem run_phases_error_counterexample :
    (runPhases [phaseLog "A", phaseBoom "B", phaseLog "C"] []).1 = Except.error "boom" ∧
    (runPhases [phaseLog "A", phaseLog "B", phaseBoom "C"] []).1 = Except.error "boom" ∧
    (runPhases [phaseLog "A", phaseBoom "B", phaseLog "C"] []).1
      = (runPhases [phaseLog "A", phaseLog "B", phaseBoom "C"] []).1 ∧
    (runPhases [phaseLog "A", phaseBoom "B", phaseLog "C"] []).2 = ["A", "B"] ∧
    (runPhases [phaseLog "A", phaseLog "B", phaseBoom "C"] []).2 = ["A", "B", "C"] :=
  ⟨rfl, rfl, rfl, rfl, rfl⟩

/-! ### `enable_contrib_repo` (src/lib/host.py, lines 11-32) -/

/-- Append one executed mutating command to the remote log. -/
def logCmd (r : Remote) (cmd : String) : Remote :=
  { r with log := r.log ++ [cmd] }

/-- Result of one remote command: exit status and captured stdout
(`fabric`'s `Result.ok` / `Result.stdout`). -/
structure CommandResult where
  ok : Bool
  stdout : String

/-- Python's `str.strip()`: remove leading and trailing whitespace
(structurally recursive so that it evaluates inside proofs). -/
def stripChars (cs : List Char) : List Char :=
  ((cs.dropWhile Char.isWhitespace).reverse.dropWhile Char.isWhitespace).reverse

/-- What `SSHConnection.run` (src/lib/ssh.py, lines 67-70) hands back to its
caller: `result.stdout.strip()` — the stripped stdout, not the exit status. -/
def runStdout (res : CommandResult) : String :=
  String.mk (stripChars res.stdout.toList)

def sourcesListPath : String := "/etc/apt/sources.list"

/-- The remote command `grep -q contrib /etc/apt/sources.list`: exit status 0
exactly when the file exists and contains `contrib`; `-q` suppresses all
output, so stdout is empty either way. -/
def grepQContrib (r : Remote) : CommandResult :=
  { ok := match fileGet r sourcesListPath with
          | none => false
          | some content => containsSub content "contrib".toList
    stdout := "" }

/-- The first sed apply command of `enable_contrib_repo` (quoting elided). -/
def contribSed1 : String :=
  "sed -i s/main non-free-firmware/main contrib non-free-firmware/g /etc/apt/sources.list"

/-- The second sed apply command of `enable_contrib_repo` (quoting elided). -/
def contribSed2 : String :=
  "sed -i s/^(deb.*) main$/1 main contrib/ /etc/apt/sources.list"

/-- Model of `enable_contrib_repo(ssh)` (src/lib/host.py, lines 11-32).
The probe is `result = ssh.run("grep -q 'contrib' ...", warn=True, hide=True)`
— but `SSHConnection.run` returns `result.stdout.strip()` (src/lib/ssh.py,
lines 67-70), so the subsequent truthiness test `if result:` tests the
(always empty) stdout of `grep -q`, not its exit status.  The two `sed`
apply steps are modelled as logged commands (the claim is about whether the
apply step is invoked, not about sed's text transformation). -/
def enable_contrib_repo (r : Remote) : Remote :=
  let result := runStdout (grepQContrib r)
  if result != "" then r
  else logCmd (logCmd r contribSed1) contribSed2

/-- A host whose sources.list already has the contrib component enabled. -/
def contribPresentRemote : Remote :=
  { files := [(sourcesListPath,
      "deb http://deb.debian.org/debian trixie main contrib non-free-firmware".toList)]
    sshdOk := fun _ => false
    log := [] }

/-- C5, evaluated at the failing input: on a host where the existence probe
(`grep -q contrib`, exit status 0) reports the contrib repository as already
present, `enable_contrib_repo` nevertheless invokes both mutating sed apply
commands, because the skip branch tests the probe's empty stdout rather
than its exit status and is therefore unreachable (so is its
"contrib repo already enabled" message). -/
theorem enable_contrib_repo_reapplies_when_present :
    (grepQContrib contribPresentRemote).ok = true ∧
    (enable_contrib_repo contribPresentRemote).log = [contribSed1, contribSed2] := by
  constructor
  · decide
  · rfl

/-! ### Database provisioning (src/lib/config.py, src/lib/postgres.py) -/

/-- Model of `DatabaseConfig` (src/lib/config.py, lines 89-104): the `name`,
`user` and `password` fields plus the private `_generated_password` cache
(set on first access of `actual_password` when `password == "generate"`).
The cache lives on the configuration object, so it persists across
repeated phase invocations within one run of the process. -/
structure DatabaseConfig where
  name : String
  user : String
  password : String
  generated : Option String
  deriving DecidableEq

/-- Model of the property `DatabaseConfig.actual_password` (src/lib/config.py,
lines 97-104).  `gen n` is the password the n-th call to `generate_password`
during the run returns (the CSPRNG output stream) and `ctr` how many calls
happened so far; the result is the returned password, the updated
configuration object, and the updated call counter. -/
def actual_password (gen : Nat → String) (d : DatabaseConfig) (ctr : Nat) :
    String × DatabaseConfig × Nat :=
  if d.password = "generate" then
    match d.generated with
    | some p => (p, d, ctr)
    | none => (gen ctr, { d with generated := some (gen ctr) }, ctr + 1)
  else (d.password, d, ctr)

/-- The PostgreSQL server state touched by `create_databases`: the roles
(with their current passwords) and the databases (with their owners). -/
structure PgState where
  roles : List (String × String)
  dbs : List (String × String)
  deriving DecidableEq

/-- One loop iteration of `create_databases` (src/lib/postgres.py, lines
164-200), i.e. the four psql commands for one configured database:

1. `DO $$ ... IF NOT EXISTS (SELECT FROM pg_roles WHERE rolname = USER)
   THEN CREATE ROLE USER LOGIN PASSWORD PW; ... $$` — create the role only
   when absent;
2. `ALTER USER USER PASSWORD PW` — unconditionally set the password;
3. `SELECT 1 FROM pg_database WHERE datname = NAME | grep -q 1 ||
   createdb -O USER NAME` — create the database only when absent;
4. `GRANT ALL PRIVILEGES ON DATABASE NAME TO USER` — no modelled state
   effect (grants are set-like and the claim is about creations and
   passwords).

Returns the password recorded for the handoff document, the updated
configuration object, the updated generator counter, and the new server
state. -/
def createOneDatabase (gen : Nat → String) (d : DatabaseConfig) (ctr : Nat) (pg : PgState) :
    String × DatabaseConfig × Nat × PgState :=
  match actual_password gen d ctr with
  | (pw, d1, ctr1) =>
    let pg1 := if pg.roles.any (fun rp => rp.1 == d.user) then pg
               else { pg with roles := pg.roles ++ [(d.user, pw)] }
    let pg2 := { pg1 with
                 roles := pg1.roles.map (fun rp => if rp.1 == d.user then (rp.1, pw) else rp) }
    let pg3 := if pg2.dbs.any (fun nd => nd.1 == d.name) then pg2
               else { pg2 with dbs := pg2.dbs ++ [(d.name, d.user)] }
    (pw, d1, ctr1, pg3)

/-- Model of `create_databases(ssh, config)` (src/lib/postgres.py, lines
154-203): iterate over the configured databases, returning the
name-to-password dict accumulated for the handoff document together with
the updated configuration objects, generator counter, and server state. -/
def create_databases (gen : Nat → String) :
    List DatabaseConfig → Nat → PgState →
    List (String × String) × List DatabaseConfig × Nat × PgState
  | [], ctr, pg => ([], [], ctr, pg)
  | d :: ds, ctr, pg =>
    match createOneDatabase gen d ctr pg with
    | (pw, d1, ctr1, pg1) =>
      match create_databases gen ds ctr1 pg1 with
      | (pws, ds1, ctr2, pg2) => ((d.name, pw) :: pws, d1 :: ds1, ctr2, pg2)

/-- The spec scenario's configuration: three databases, each with
`password: "generate"` and no cached generated password yet. -/
def threeGenerateDbs : List DatabaseConfig :=
  [ { name := "app_dev", user := "app_dev_user", password := "generate", generated := none },
    { name := "app_staging", user := "app_staging_user", password := "generate",
      generated := none },
    { name := "app_prod", user := "app_prod_user", password := "generate", generated := none } ]

/-- A fresh PostgreSQL instance: no configured roles or databases yet. -/
def emptyPg : PgState := { roles := [], dbs := [] }

/-- First run of the database-provisioning phase on the scenario config. -/
def dbRunOnce (gen : Nat → String) :
    List (String × String) × List DatabaseConfig × Nat × PgState :=
  create_databases gen threeGenerateDbs 0 emptyPg

/-- Second run of the phase, continuing from the first run's configuration
objects (the `_generated_password` caches), counter, and server state. -/
def dbRunTwice (gen : Nat → String) :
    List (String × String) × List DatabaseConfig × Nat × PgState :=
  create_databases gen (dbRunOnce gen).2.1 (dbRunOnce gen).2.2.1 (dbRunOnce gen).2.2.2

/-- C6: for the three-database `password: "generate"` configuration, running
the database-provisioning phase twice (for every possible CSPRNG output
stream `gen`) creates exactly three roles and three databases after the
first run, the second run creates none in addition (the server state is
unchanged, so in particular the `ALTER USER` of the second run sets each
existing role's password to the same value it already has), and the
passwords recorded by the second run equal those of the first. -/
theorem create_databases_twice_idempotent (gen : Nat → String) :
    (dbRunOnce gen).2.2.2.roles.length = 3 ∧
    (dbRunOnce gen).2.2.2.dbs.length = 3 ∧
    (dbRunTwice gen).2.2.2 = (dbRunOnce gen).2.2.2 ∧
    (dbRunTwice gen).1 = (dbRunOnce gen).1 := by
  simp [dbRunOnce, dbRunTwice, create_databases, createOneDatabase, actual_password,
    threeGenerateDbs, emptyPg]

/-! ### Claim C7: `write_file` content -/

/-- A host with one pre-existing file, used to evaluate `write_file`. -/
def writeSampleRemote : Remote :=
  { files := [("/etc/motd", "old".toList)], sshdOk := fun _ => false, log := [] }

/-- Counterexample to C7 as stated: `SSHConnection.write_file` transfers the
content as the body of a newline-terminated tee-heredoc aimed directly at
the destination path, so after a SUCCESSFUL call the remote file holds the
given content plus one trailing newline — neither "exactly the full given
content" nor the previous content, contradicting the claimed
all-or-nothing postcondition already in the success case (and the transfer
is not a write-to-temp-then-install of the claimed kind: the single tee
command truncates and writes the final path itself). -/
theorem write_file_trailing_newline_counterexample :
    fileGet (write_file writeSampleRemote "/etc/motd" "hello".toList "644") "/etc/motd"
      = some "hello\n".toList ∧
    some ("hello\n".toList) ≠ some ("hello".toList) ∧
    some ("hello\n".toList) ≠ some ("old".toList) := by
  refine ⟨by decide, by decide, by decide⟩

/-- C7 (amended): for every path, content and mode, a `write_file` call
leaves the remote file containing exactly the given content followed by one
newline, provided no line of the content equals the heredoc delimiter
`VIBEHOST_EOF` (a content line equal to the delimiter would terminate the
transfer early).  The write is a single direct tee command, not a
write-to-temp-then-install. -/
theorem write_file_success_content (r : Remote) (path : String) (content : List Char)
    (mode : String) (h : ∀ l ∈ splitLines content, l ≠ heredocDelim) :
    fileGet (write_file r path content mode) path = some (content ++ ['\n']) := by
  have hbody : teeBody content = content ++ ['\n'] := by
    unfold teeBody
    rw [takeWhile_eq_self_of_all _ _ (fun l hl => by
      simp only [Bool.not_eq_true', beq_eq_false_iff_ne, ne_eq]
      exact h l hl)]
    rw [joinLines_splitLines]
  rw [fileGet_write_file_same, hbody]

/-- Witness for C7 (amended) at a concrete host, path and content. -/
theorem write_file_success_content_witness :
    (∀ l ∈ splitLines "hello".toList, l ≠ heredocDelim) ∧
    fileGet (write_file writeSampleRemote "/etc/motd" "hello".toList "644") "/etc/motd"
      = some ("hello".toList ++ ['\n']) :=
  ⟨by decide,
   write_file_success_content writeSampleRemote "/etc/motd" "hello".toList "644" (by decide)⟩

/-! ### `ContainerExec.run` command quoting (src/lib/ssh.py, lines 158-170)

`ContainerExec.run` escapes the caller's command and wraps it as
`incus exec CONTAINER -- bash -c 'ESCAPED'`; `ssh.sudo` with
`ssh_user == "root"` passes that string through `SSHConnection.run`
unchanged, so it is parsed exactly once by the remote shell.  `incus exec`
then hands the argument after `-c` verbatim to `bash` inside the container.
The theorem below shows the remote shell's parse of the wrapped string is a
single simple command whose final word is exactly the caller's command. -/

/-- The single-quote character (ASCII 39). -/
def squote : Char := Char.ofNat 39

/-- One character of `command.replace("'", "'\"'\"'")` (src/lib/ssh.py,
line 168): a single quote becomes quote, double-quote, quote, double-quote,
quote; any other character is untouched. -/
def escapeChar (c : Char) : List Char :=
  if c == squote then [squote, '"', squote, '"', squote] else [c]

/-- The whole escaped command. -/
def escapeSingleQuotes : List Char → List Char
  | [] => []
  | c :: t => escapeChar c ++ escapeSingleQuotes t

/-- The full command string handed to the remote shell (container name and
caller command filled into the wrapper). -/
def containerRunCmd (container : String) (command : String) : String :=
  "incus exec " ++ container ++ " -- bash -c "
    ++ String.mk (squote :: (escapeSingleQuotes command.toList ++ [squote]))

/-- Lexer mode of the POSIX shell word scanner: outside quotes, inside
single quotes, inside double quotes. -/
inductive SMode where
  | norm : SMode
  | insingle : SMode
  | indouble : SMode

/-- Characters with no special meaning to a POSIX shell outside quotes
(the wrapper text only uses letters, digits, spaces and dashes). -/
def plainChar (c : Char) : Bool :=
  c.isAlphanum || c == '-' || c == '_' || c == '.' || c == '/' || c == ':'

/-- A conservative model of the remote POSIX shell's parse of one command
line into words.  It returns `some argv` only when the input is a single
simple command made of literally-quoted words: any character the real shell
would treat specially outside single quotes — separators (`;`, `|`, `&`,
newline), expansions (`$`, backquote), escapes, redirections, globs — makes
the scanner return `none` rather than modelling its effect.  A `some`
result therefore certifies that the line parses as exactly one command with
exactly those words: no truncation and no injection of further commands. -/
def lexShell : SMode → List Char → Option (List Char) → List (List Char) →
    Option (List (List Char))
  | SMode.norm, [], none, ws => some ws
  | SMode.norm, [], some cur, ws => some (ws ++ [cur.reverse])
  | SMode.norm, c :: cs, cur, ws =>
    if c == ' ' then
      match cur with
      | none => lexShell SMode.norm cs none ws
      | some w => lexShell SMode.norm cs none (ws ++ [w.reverse])
    else if c == squote then lexShell SMode.insingle cs (some (cur.getD [])) ws
    else if c == '"' then lexShell SMode.indouble cs (some (cur.getD [])) ws
    else if plainChar c then lexShell SMode.norm cs (some (c :: cur.getD [])) ws
    else none
  | SMode.insingle, [], _, _ => none
  | SMode.insingle, c :: cs, cur, ws =>
    if c == squote then lexShell SMode.norm cs cur ws
    else lexShell SMode.insingle cs (some (c :: cur.getD [])) ws
  | SMode.indouble, [], _, _ => none
  | SMode.indouble, c :: cs, cur, ws =>
    if c == '"' then lexShell SMode.norm cs cur ws
    else if c == '$' || c.toNat == 96 || c == '\\' then none
    else lexShell SMode.indouble cs (some (c :: cur.getD [])) ws

/-- Scanning the escaped form of `cs` while inside single quotes appends
exactly the characters of `cs` to the current word: each escaped single
quote closes the quote, contributes a double-quoted literal quote, and
reopens it. -/
theorem lexShell_escape (cs : List Char) (rest : List Char) (ws : List (List Char)) :
    ∀ cur : List Char,
      lexShell SMode.insingle (escapeSingleQuotes cs ++ rest) (some cur) ws
        = lexShell SMode.insingle rest (some (cs.reverseAux cur)) ws := by
  induction cs with
  | nil => intro cur; rfl
  | cons c t ih =>
    intro cur
    by_cases hc : c = squote
    · subst hc
      have hstep :
          lexShell SMode.insingle (escapeSingleQuotes (squote :: t) ++ rest) (some cur) ws
            = lexShell SMode.insingle (escapeSingleQuotes t ++ rest) (some (squote :: cur)) ws :=
        rfl
      rw [hstep]
      exact ih (squote :: cur)
    · have hbe : (c == squote) = false := by simp [hc]
      have h1 : escapeSingleQuotes (c :: t) ++ rest = c :: (escapeSingleQuotes t ++ rest) := by
        simp [escapeSingleQuotes, escapeChar, hbe]
      rw [h1]
      have hstep :
          lexShell SMode.insingle (c :: (escapeSingleQuotes t ++ rest)) (some cur) ws
            = lexShell SMode.insingle (escapeSingleQuotes t ++ rest) (some (c :: cur)) ws := by
        simp [lexShell, hbe]
      rw [hstep]
      exact ih (c :: cur)

/-- C8: for EVERY caller command (quotes, dollar signs, backslashes,
newlines included), the command line `ContainerExec.run` sends to the host
shell parses as the single simple command
`incus exec dev -- bash -c COMMAND` whose last word is character-for-
character the caller's command: the escaping survives the host shell's
quote removal with no truncation and no injection of additional commands,
and `incus exec` passes that word as the inner bash's `-c` operand, so the
command executed inside the container is exactly the one the caller
passed. -/
theorem container_exec_roundtrip (command : String) :
    lexShell SMode.norm (containerRunCmd "dev" command).toList none []
      = some ["incus".toList, "exec".toList, "dev".toList, "--".toList,
              "bash".toList, "-c".toList, command.toList] := by
  have hlist : (containerRunCmd "dev" command).toList
      = "incus exec dev -- bash -c ".toList
          ++ squote :: (escapeSingleQuotes command.toList ++ [squote]) := rfl
  have hpre : ∀ rest : List Char,
      lexShell SMode.norm ("incus exec dev -- bash -c ".toList ++ rest) none []
        = lexShell SMode.norm rest none
            ["incus".toList, "exec".toList, "dev".toList, "--".toList,
             "bash".toList, "-c".toList] :=
    fun rest => rfl
  have hopen : ∀ (rest : List Char) (ws : List (List Char)),
      lexShell SMode.norm (squote :: rest) none ws
        = lexShell SMode.insingle rest (some []) ws :=
    fun rest ws => rfl
  have hclose : ∀ (x : List Char) (ws : List (List Char)),
      lexShell SMode.insingle [squote] (some x) ws = some (ws ++ [x.reverse]) :=
    fun x ws => rfl
  rw [hlist, hpre, hopen, lexShell_escape, hclose]
  simp [List.reverseAux_eq]

/-! ### Claim C9: config attribute reads in `install_incus` -/

/-- The fields declared on the validated configuration model
`VibehostConfig` (src/lib/config.py, lines 230-242), in declaration order.
A pydantic model raises `AttributeError` for any attribute access outside
this list. -/
def vibehostConfigFields : List String :=
  ["server", "admin", "network", "resources", "postgres",
   "backups", "dev_setup", "containers", "common_setup", "storage"]

/-- Whether an attribute access on the validated config object succeeds. -/
def configHasField (attr : String) : Bool := vibehostConfigFields.contains attr

/-- Model of `install_incus(ssh, config)` (src/lib/incus.py, lines 20-74) up
to its reads of the typed configuration: after detecting the remote Debian
version it immediately evaluates `config.incus.channel` (line 25), before
any branch on the version; `incus` is not a field of `VibehostConfig`, so
on a pydantic model this access raises `AttributeError`.  The rest of the
function (package installation commands) is unreachable past a failed read
and is not modelled. -/
def install_incus (_debianVersion : Nat) : Except String Unit :=
  if configHasField "incus" then Except.ok ()
  else Except.error "AttributeError: VibehostConfig object has no field incus"

/-- C9, evaluated against the code: the claim is right and the code is
wrong — `install_incus` reads `config.incus.channel` but `incus` is not
among the fields of the validated `VibehostConfig` model, so the access
fails with `AttributeError` on EVERY validated configuration (whatever
Debian version is detected), contradicting the claim that every phase's
config read succeeds. -/
theorem install_incus_attribute_error :
    configHasField "incus" = false ∧
    ∀ debianVersion : Nat, install_incus debianVersion
      = Except.error "AttributeError: VibehostConfig object has no field incus" :=
  ⟨by decide, fun _ => rfl⟩

/-! ### Claim C10: `generate_password` and `actual_password` -/

/-- The alphabet of `generate_password` (src/lib/config.py, lines 12-15):
`string.ascii_letters + string.digits`. -/
def passwordAlphabet : List Char :=
  "abcdefghijklmnopqrstuvwxyzABCDEFGHIJKLMNOPQRSTUVWXYZ0123456789".toList

/-- Model of `generate_password()` at its (always used) default length 32:
32 independent uniform choices from the 62-character alphabet; `pick i` is
the CSPRNG draw behind the i-th `secrets.choice` call, reduced modulo the
alphabet size. -/
def generate_password (pick : Nat → Nat) : String :=
  String.mk ((List.range 32).map (fun i => passwordAlphabet.getD (pick i % 62) 'a'))

theorem getD_mem_of_lt {α : Type} (l : List α) (n : Nat) (d : α) (h : n < l.length) :
    l.getD n d ∈ l := by
  induction l generalizing n with
  | nil => simp at h
  | cons a t ih =>
    cases n with
    | zero => simp [List.getD_cons_zero]
    | succ m =>
      rw [List.getD_cons_succ]
      exact List.mem_cons_of_mem a (ih m (by simpa using h))

theorem generate_password_length (pick : Nat → Nat) :
    (generate_password pick).length = 32 := by
  have h : (generate_password pick).length
      = ((List.range 32).map (fun i => passwordAlphabet.getD (pick i % 62) 'a')).length := rfl
  rw [h, List.length_map, List.length_range]

theorem generate_password_chars (pick : Nat → Nat) :
    ∀ c ∈ (generate_password pick).toList, c.isAlphanum = true := by
  intro c hc
  have h : (generate_password pick).toList
      = (List.range 32).map (fun i => passwordAlphabet.getD (pick i % 62) 'a') := rfl
  rw [h] at hc
  obtain ⟨i, _, rfl⟩ := List.mem_map.mp hc
  have hlen : passwordAlphabet.length = 62 := rfl
  have hmem : passwordAlphabet.getD (pick i % 62) 'a' ∈ passwordAlphabet :=
    getD_mem_of_lt passwordAlphabet (pick i % 62) 'a'
      (by rw [hlen]; exact Nat.mod_lt _ (by decide))
  have hall : ∀ ch ∈ passwordAlphabet, ch.isAlphanum = true := by decide
  exact hall _ hmem

/-- C10: for every CSPRNG behavior `rnd` (one draw stream per
`generate_password` call), every `DatabaseConfig`, and every generator call
count: when the password field is the literal "generate" and nothing is
cached yet, the first `actual_password` access returns a freshly generated
password and caches it, and every later access returns that same cached
password with the configuration object and the generator counter unchanged
(it is never regenerated within the run); the returned password has exactly
32 characters, all ASCII letters or digits.  When the password field is any
other string, `actual_password` returns that configured string and changes
nothing. -/
theorem actual_password_spec (rnd : Nat → Nat → Nat) (d : DatabaseConfig) (ctr : Nat) :
    (d.password = "generate" → d.generated = none →
      actual_password (fun n => generate_password (rnd n)) d ctr
        = (generate_password (rnd ctr),
           { d with generated := some (generate_password (rnd ctr)) }, ctr + 1) ∧
      actual_password (fun n => generate_password (rnd n))
          { d with generated := some (generate_password (rnd ctr)) } (ctr + 1)
        = (generate_password (rnd ctr),
           { d with generated := some (generate_password (rnd ctr)) }, ctr + 1) ∧
      (generate_password (rnd ctr)).length = 32 ∧
      (∀ c ∈ (generate_password (rnd ctr)).toList, c.isAlphanum = true)) ∧
    (d.password ≠ "generate" →
      actual_password (fun n => generate_password (rnd n)) d ctr = (d.password, d, ctr)) := by
  constructor
  · intro h1 h2
    refine ⟨by simp [actual_password, h1, h2], by simp [actual_password, h1], ?_, ?_⟩
    · exact generate_password_length (rnd ctr)
    · exact generate_password_chars (rnd ctr)
  · intro h
    simp [actual_password, h]

/-- A database entry with `password: "generate"` and an empty cache. -/
def genDbCfg : DatabaseConfig :=
  { name := "app", user := "app_user", password := "generate", generated := none }

/-- A database entry with an explicitly configured password. -/
def fixedDbCfg : DatabaseConfig :=
  { name := "app", user := "app_user", password := "s3cret", generated := none }

/-- A concrete CSPRNG behavior (all draws zero) for the witness. -/
def rnd0 : Nat → Nat → Nat := fun _ _ => 0

/-- Witness for C10 at concrete inputs: one entry exercising the
generate-and-cache branch, one exercising the configured-password branch. -/
theorem actual_password_spec_witness :
    genDbCfg.password = "generate" ∧ genDbCfg.generated = none ∧
    (actual_password (fun n => generate_password (rnd0 n)) genDbCfg 0
        = (generate_password (rnd0 0),
           { genDbCfg with generated := some (generate_password (rnd0 0)) }, 1) ∧
     actual_password (fun n => generate_password (rnd0 n))
         { genDbCfg with generated := some (generate_password (rnd0 0)) } 1
        = (generate_password (rnd0 0),
           { genDbCfg with generated := some (generate_password (rnd0 0)) }, 1) ∧
     (generate_password (rnd0 0)).length = 32 ∧
     (∀ c ∈ (generate_password (rnd0 0)).toList, c.isAlphanum = true)) ∧
    fixedDbCfg.password ≠ "generate" ∧
    actual_password (fun n => generate_password (rnd0 n)) fixedDbCfg 0
      = ("s3cret", fixedDbCfg, 0) :=
  ⟨rfl, rfl,
   (actual_password_spec rnd0 genDbCfg 0).1 rfl rfl,
   by decide,
   (actual_password_spec rnd0 fixedDbCfg 0).2 (by decide)⟩
